import Mathlib

/-!
Verification of the JWT-RBAC front-end template.

Shallow embedding of the three reproducible components of the repository:
* the static role→permission table and the `useHasRole` / `useHasPermission`
  checks (`frontend/src/app/page.tsx`, usePermissions module);
* the session state store (`frontend/src/lib/auth-provider.tsx`);
* the token-refresh coordination in the axios response interceptor
  (`frontend/src/lib/api.ts`), modelled as a deterministic step function on a
  world state driven by an event list (single-threaded event loop: each event
  is one synchronous segment between suspension points).
-/

namespace JwtRbac

/-! ## Roles, users and the permission table (page.tsx / usePermissions) -/

/-- The fixed role enumeration: admin, manager, user. -/
inductive Role where
  | admin
  | manager
  | user
deriving DecidableEq, Repr, BEq

/-- The `User` identity record of `auth-provider.tsx`. -/
structure User where
  id : String
  email : String
  username : String
  first_name : String
  last_name : String
  role : Role
  is_verified : Bool
  is_active : Bool
  created_at : String
  updated_at : String
deriving DecidableEq, Repr

/-- The static `ROLE_PERMISSIONS` table of the usePermissions module.
The TypeScript `|| []` fallback for an unknown role is dead here because
`Role` is the closed enumeration. -/
def ROLE_PERMISSIONS : Role → List String
  | .admin => ["manage_users", "manage_roles", "view_dashboard", "edit_profile", "view_profile"]
  | .manager => ["view_dashboard", "manage_users", "edit_profile", "view_profile"]
  | .user => ["view_dashboard", "edit_profile", "view_profile"]

/-- The check `useHasRole`: false when unauthenticated or the user is absent, otherwise
membership of the user role in the candidate roles. -/
def useHasRole (user : Option User) (isAuthenticated : Bool) (roles : List Role) : Bool :=
  match isAuthenticated, user with
  | true, some u => roles.contains u.role
  | _, _ => false

/-- The check `useHasPermission`: false when unauthenticated or the user is absent,
otherwise `permissions.some (p => userPermissions.includes p)`. -/
def useHasPermission (user : Option User) (isAuthenticated : Bool)
    (permissions : List String) : Bool :=
  match isAuthenticated, user with
  | true, some u => permissions.any (fun p => (ROLE_PERMISSIONS u.role).contains p)
  | _, _ => false

/-- Rank of a role in the admin ≥ manager ≥ user hierarchy (used only to
state the implicit hierarchy claim about `ROLE_PERMISSIONS`). -/
def roleRank : Role → Nat
  | .user => 0
  | .manager => 1
  | .admin => 2

/-! ## Session state store (auth-provider.tsx) -/

/-- The `AuthState` of the provider. -/
structure AuthState where
  user : Option User
  isAuthenticated : Bool
  isLoading : Bool
deriving DecidableEq, Repr

/-- Initial provider state: `{ user: null, isAuthenticated: false, isLoading: true }`. -/
def initialAuthState : AuthState :=
  { user := none, isAuthenticated := false, isLoading := true }

/-- Errors thrown by the HTTP layer, abstracted to their message. -/
abbrev ApiError := String

/-- Shape of the `/auth/login/` and `/auth/register/` response body:
`{ success: bool, user: User }`.  The `user` field is `Option` because the
TypeScript code reads `response.data.user` untyped; the external-interface
section promises it is present, which theorems take as a hypothesis. -/
structure LoginResponse where
  success : Bool
  user : Option User
deriving DecidableEq, Repr

/-- Operation `fetchCurrentUser`: `GET /auth/me/`, success sets the authenticated state
from `response.data.user`, any error is caught and yields the unauthenticated
state.  Total function: the operation never throws to its caller. -/
def fetchCurrentUser (_s : AuthState) (resp : Except ApiError User) : AuthState :=
  match resp with
  | .ok u => { user := some u, isAuthenticated := true, isLoading := false }
  | .error _ => { user := none, isAuthenticated := false, isLoading := false }

/-- Operation `login`: posts credentials; on `response.data.success` sets the
authenticated state and navigates to `/dashboard`; an HTTP error is not
caught, so it propagates (third component) with the state unchanged. -/
def login (s : AuthState) (resp : Except ApiError LoginResponse) :
    AuthState × Option String × Option ApiError :=
  match resp with
  | .ok r =>
      if r.success then
        ({ user := r.user, isAuthenticated := true, isLoading := false },
         some "/dashboard", none)
      else (s, none, none)
  | .error e => (s, none, some e)

/-- Operation `register`: same body as `login` over `/auth/register/`. -/
def register (s : AuthState) (resp : Except ApiError LoginResponse) :
    AuthState × Option String × Option ApiError :=
  match resp with
  | .ok r =>
      if r.success then
        ({ user := r.user, isAuthenticated := true, isLoading := false },
         some "/dashboard", none)
      else (s, none, none)
  | .error e => (s, none, some e)

/-- Operation `logout`: best-effort `POST /auth/logout/` inside try/catch (errors
ignored), then unconditionally resets the state and navigates to `/login`.
No error component in the result: backend errors are never propagated. -/
def logout (_s : AuthState) (resp : Except ApiError Unit) : AuthState × String :=
  match resp with
  | .ok _ => ({ user := none, isAuthenticated := false, isLoading := false }, "/login")
  | .error _ => ({ user := none, isAuthenticated := false, isLoading := false }, "/login")

/-- Operation `refreshToken`: `POST /auth/token/refresh/`; on failure delegates to
`logout` (which itself takes the logout call response). -/
def refreshToken (s : AuthState) (refreshResp : Except ApiError Unit)
    (logoutResp : Except ApiError Unit) : AuthState × Option String :=
  match refreshResp with
  | .ok _ => (s, none)
  | .error _ =>
      let l := logout s logoutResp
      (l.1, some l.2)

/-- The session-state invariant: authenticated implies a user is present. -/
def authInvariant (s : AuthState) : Prop :=
  s.isAuthenticated = true → s.user.isSome = true

instance (s : AuthState) : Decidable (authInvariant s) := by
  unfold authInvariant; infer_instance

/-! ## Token-refresh coordination (api.ts response interceptor) -/

/-- An outgoing request config: identity, the `_retry` marker, and the
`Authorization` header. -/
structure Request where
  id : Nat
  retry : Bool
  auth : Option String
deriving DecidableEq, Repr

/-- Completion status of a request as seen by the response interceptor. -/
inductive Status where
  | ok
  | unauthorized
  | otherError
deriving DecidableEq, Repr, BEq

/-- What the caller of a request ultimately receives when the interceptor
settles its promise without re-issuing it. -/
inductive CallerOutcome where
  | passthrough (s : Status)
  | refreshFailed (msg : String)
deriving DecidableEq, Repr

/-- Process-wide interceptor state plus observation logs.
`isRefreshing` and `refreshSubscribers` are the two module-scope variables of
`api.ts`; a queued subscriber closure is represented by the request it
captured (invoking it attaches the token and re-issues that request).
`initiator` is the request whose handler is suspended awaiting the refresh
call; `refreshCalls` counts refresh calls issued; `reissued` logs re-issued
requests in issue order; `passedThrough` logs promises settled for the
caller; `redirects` logs `window.location.href` assignments. -/
structure World where
  isRefreshing : Bool
  refreshSubscribers : List Request
  initiator : Option Request
  refreshCalls : Nat
  reissued : List Request
  passedThrough : List (Request × CallerOutcome)
  redirects : List String
deriving DecidableEq, Repr

/-- Fresh world: `isRefreshing = false`, empty subscriber queue, no logs. -/
def initialWorld : World :=
  { isRefreshing := false, refreshSubscribers := [], initiator := none,
    refreshCalls := 0, reissued := [], passedThrough := [], redirects := [] }

/-- One event-loop turn relevant to the interceptor: a request completes with
a status, or the in-flight refresh call resolves (`Except` of the new access
token or the refresh error). -/
inductive Event where
  | respond (req : Request) (status : Status)
  | refreshDone (outcome : Except String String)
deriving Repr

/-- One synchronous segment of the interceptor logic (api.ts lines 40-82).
`respond`: a 401 on a not-yet-retried request either enqueues a subscriber
(when a refresh is in flight) or marks the request retried, sets
`isRefreshing` and issues the refresh; anything else settles for the caller.
`refreshDone .ok`: clears `isRefreshing`, invokes every subscriber in queue
order with the token (re-issuing each captured request with the Bearer
header), clears the queue, then re-issues the initiator with the header.
`refreshDone .error`: clears `isRefreshing`, redirects to `/login`, rejects
the initiator promise; the subscriber queue is left untouched (the catch
branch never clears it). -/
def step (w : World) (e : Event) : World :=
  match e with
  | .respond req status =>
      if status = .unauthorized ∧ req.retry = false then
        if w.isRefreshing then
          { w with refreshSubscribers := w.refreshSubscribers ++ [req] }
        else
          { w with isRefreshing := true,
                   initiator := some { req with retry := true },
                   refreshCalls := w.refreshCalls + 1 }
      else
        { w with passedThrough := w.passedThrough ++ [(req, .passthrough status)] }
  | .refreshDone (.ok token) =>
      { w with isRefreshing := false,
               refreshSubscribers := [],
               initiator := none,
               reissued := w.reissued
                 ++ w.refreshSubscribers.map (fun r => { r with auth := some ("Bearer " ++ token) })
                 ++ (match w.initiator with
                     | some r => [{ r with auth := some ("Bearer " ++ token) }]
                     | none => []) }
  | .refreshDone (.error msg) =>
      { w with isRefreshing := false,
               initiator := none,
               redirects := w.redirects ++ ["/login"],
               passedThrough := w.passedThrough
                 ++ (match w.initiator with
                     | some r => [(r, .refreshFailed msg)]
                     | none => []) }

/-- Run a list of events from a world state. -/
def run (w : World) (events : List Event) : World :=
  events.foldl step w

/-- A sample user with the given role, used to instantiate witnesses. -/
def sampleUser (r : Role) : User :=
  { id := "1", email := "a@b.com", username := "ab", first_name := "A",
    last_name := "B", role := r, is_verified := true, is_active := true,
    created_at := "t0", updated_at := "t0" }

/-! ## Theorems: permission table and checks -/

/-- C8: for every candidate role set and permission set, `useHasRole` and
`useHasPermission` return false whenever the session is unauthenticated or
the user is absent. -/
theorem checks_false_of_unauthenticated (user : Option User) (isAuth : Bool)
    (roles : List Role) (perms : List String)
    (h : isAuth = false ∨ user = none) :
    useHasRole user isAuth roles = false ∧ useHasPermission user isAuth perms = false := by
  rcases h with h | h
  · subst h; cases user <;> exact ⟨rfl, rfl⟩
  · subst h; cases isAuth <;> exact ⟨rfl, rfl⟩

/-- Witness for C8 at a concrete unauthenticated input. -/
theorem checks_false_of_unauthenticated_witness :
    useHasRole none false [Role.admin] = false ∧
    useHasPermission none false ["view_dashboard"] = false :=
  checks_false_of_unauthenticated none false [Role.admin] ["view_dashboard"] (Or.inl rfl)

/-- C9: the permission set of every defined role contains `view_dashboard`, so
`useHasPermission` on an authenticated user of any role with candidate set
containing only `view_dashboard` returns true. -/
theorem every_role_has_view_dashboard :
    (∀ r : Role, "view_dashboard" ∈ ROLE_PERMISSIONS r) ∧
    (∀ u : User, useHasPermission (some u) true ["view_dashboard"] = true) := by
  constructor
  · intro r; cases r <;> simp [ROLE_PERMISSIONS]
  · intro u
    show List.any _ _ = true
    cases h : u.role <;> decide

/-- C10: the permission table is a monotone hierarchy, user ⊆ manager ⊆
admin as sets, and any permission check succeeding for a lower role
succeeds for every higher role. -/
theorem role_permission_hierarchy :
    (∀ p, p ∈ ROLE_PERMISSIONS .user → p ∈ ROLE_PERMISSIONS .manager) ∧
    (∀ p, p ∈ ROLE_PERMISSIONS .manager → p ∈ ROLE_PERMISSIONS .admin) ∧
    (∀ (u1 u2 : User) (perms : List String),
      roleRank u1.role ≤ roleRank u2.role →
      useHasPermission (some u1) true perms = true →
      useHasPermission (some u2) true perms = true) := by
  have hsub : ∀ r1 r2 : Role, roleRank r1 ≤ roleRank r2 →
      ∀ p, p ∈ ROLE_PERMISSIONS r1 → p ∈ ROLE_PERMISSIONS r2 := by
    intro r1 r2 hle p hp
    cases r1 <;> cases r2 <;>
      simp [roleRank] at hle <;>
      simp [ROLE_PERMISSIONS] at hp ⊢ <;> tauto
  refine ⟨hsub .user .manager (by decide), hsub .manager .admin (by decide), ?_⟩
  intro u1 u2 perms hle hperm
  have h1 : ∃ p ∈ perms, p ∈ ROLE_PERMISSIONS u1.role := by
    simpa [useHasPermission, List.any_eq_true, List.elem_iff] using hperm
  obtain ⟨p, hpmem, hp1⟩ := h1
  have hp2 : p ∈ ROLE_PERMISSIONS u2.role := hsub _ _ hle p hp1
  simpa [useHasPermission, List.any_eq_true, List.elem_iff] using ⟨p, hpmem, hp2⟩

/-- Witness for C10: a check that succeeds for role user succeeds for admin. -/
theorem role_permission_hierarchy_witness :
    useHasPermission (some (sampleUser .admin)) true ["edit_profile"] = true :=
  role_permission_hierarchy.2.2 (sampleUser .user) (sampleUser .admin)
    ["edit_profile"] (by decide) (by decide)

/-! ## Theorems: session state store -/

/-- C4: the invariant `isAuthenticated → user present` holds initially and
is preserved by every public operation, assuming backend success responses
to login/register carry a user object. -/
theorem session_invariant_preserved :
    authInvariant initialAuthState ∧
    (∀ s resp, authInvariant (fetchCurrentUser s resp)) ∧
    (∀ s resp, authInvariant s →
      (∀ r, resp = Except.ok r → r.success = true → r.user.isSome = true) →
      authInvariant (login s resp).1) ∧
    (∀ s resp, authInvariant s →
      (∀ r, resp = Except.ok r → r.success = true → r.user.isSome = true) →
      authInvariant (register s resp).1) ∧
    (∀ s resp, authInvariant (logout s resp).1) ∧
    (∀ s r1 r2, authInvariant s → authInvariant (refreshToken s r1 r2).1) := by
  refine ⟨by decide, ?_, ?_, ?_, ?_, ?_⟩
  · intro s resp; cases resp <;> simp [fetchCurrentUser, authInvariant]
  · intro s resp hs hok
    cases resp with
    | ok r =>
        by_cases hsucc : r.success = true
        · have := hok r rfl hsucc
          simp [login, hsucc, authInvariant, this]
        · simp only [Bool.not_eq_true] at hsucc
          simpa [login, hsucc] using hs
    | error e => simpa [login] using hs
  · intro s resp hs hok
    cases resp with
    | ok r =>
        by_cases hsucc : r.success = true
        · have := hok r rfl hsucc
          simp [register, hsucc, authInvariant, this]
        · simp only [Bool.not_eq_true] at hsucc
          simpa [register, hsucc] using hs
    | error e => simpa [register] using hs
  · intro s resp; cases resp <;> simp [logout, authInvariant]
  · intro s r1 r2 hs
    cases r1 with
    | ok _ => simpa [refreshToken] using hs
    | error e => cases r2 <;> simp [refreshToken, logout, authInvariant]

/-- Witness for C4 at a concrete successful login response. -/
theorem session_invariant_preserved_witness :
    authInvariant (login initialAuthState
      (Except.ok { success := true, user := some (sampleUser .user) })).1 :=
  session_invariant_preserved.2.2.1 initialAuthState
    (Except.ok { success := true, user := some (sampleUser .user) })
    (by decide)
    (fun r hr _ => by cases hr; rfl)

/-- C5: on a success signal, login sets the authenticated state with the
returned user and navigates to the dashboard; on an HTTP failure, the error
propagates and the state is unchanged. -/
theorem login_success_and_failure :
    (∀ s r, r.success = true →
      login s (Except.ok r)
        = ({ user := r.user, isAuthenticated := true, isLoading := false },
           some "/dashboard", none)) ∧
    (∀ s e, login s (Except.error e) = (s, none, some e)) := by
  constructor
  · intro s r hsucc; simp [login, hsucc]
  · intro s e; rfl

/-- Witness for C5 at a concrete success response. -/
theorem login_success_and_failure_witness :
    login initialAuthState
        (Except.ok { success := true, user := some (sampleUser .manager) })
      = ({ user := some (sampleUser .manager), isAuthenticated := true,
           isLoading := false }, some "/dashboard", none) :=
  login_success_and_failure.1 initialAuthState
    { success := true, user := some (sampleUser .manager) } rfl

/-- C6: logout resets the state and navigates to `/login` regardless of the
backend response, and its result type carries no error: backend errors are
never propagated. -/
theorem logout_resets_state (s : AuthState) (resp : Except ApiError Unit) :
    logout s resp
      = ({ user := none, isAuthenticated := false, isLoading := false }, "/login") := by
  cases resp <;> rfl

/-- C7: `fetchCurrentUser` is a total function (never throws): on success it
ends authenticated with the returned user, on any failure it ends in the
unauthenticated non-loading state. -/
theorem fetchCurrentUser_absorbs_failures :
    (∀ s u, fetchCurrentUser s (Except.ok u)
      = { user := some u, isAuthenticated := true, isLoading := false }) ∧
    (∀ s e, fetchCurrentUser s (Except.error e)
      = { user := none, isAuthenticated := false, isLoading := false }) :=
  ⟨fun _ _ => rfl, fun _ _ => rfl⟩

/-! ## Theorems: token-refresh coordination -/

/-- While a refresh is in flight, every further 401 on a not-yet-retried
request only appends that request to the subscriber queue. -/
theorem foldl_respond_refreshing (rs : List Request) (w : World)
    (hw : w.isRefreshing = true) (hrs : ∀ r ∈ rs, r.retry = false) :
    (rs.map (fun r => Event.respond r .unauthorized)).foldl step w
      = { w with refreshSubscribers := w.refreshSubscribers ++ rs } := by
  induction rs generalizing w with
  | nil => simp
  | cons r rs ih =>
      have hr : r.retry = false := hrs r (by simp)
      have hstep : step w (.respond r .unauthorized)
          = { w with refreshSubscribers := w.refreshSubscribers ++ [r] } := by
        simp [step, hr, hw]
      rw [List.map_cons, List.foldl_cons, hstep,
        ih { w with refreshSubscribers := w.refreshSubscribers ++ [r] } hw
          (fun r hr => hrs r (by simp [hr]))]
      simp

/-- C1: with N concurrent requests all receiving 401 before the refresh
resolves (one initiator `r0` and waiters `rs`), exactly one refresh call is
issued, and after it succeeds every request is re-issued with the new Bearer
token: the waiters first, in enqueue order, then the initiator.  The refresh
is only ever issued from a non-refreshing state (the guard in `step`), so at
most one refresh is in flight at any time. -/
theorem single_refresh_all_retried (r0 : Request) (rs : List Request) (tok : String)
    (h0 : r0.retry = false) (hrs : ∀ r ∈ rs, r.retry = false) :
    run initialWorld (Event.respond r0 .unauthorized ::
        (rs.map (fun r => Event.respond r .unauthorized)
          ++ [Event.refreshDone (.ok tok)]))
      = { isRefreshing := false, refreshSubscribers := [], initiator := none,
          refreshCalls := 1,
          reissued := rs.map (fun r => { r with auth := some ("Bearer " ++ tok) })
            ++ [{ r0 with retry := true, auth := some ("Bearer " ++ tok) }],
          passedThrough := [], redirects := [] } := by
  unfold run
  rw [List.foldl_cons, List.foldl_append]
  have h1 : step initialWorld (.respond r0 .unauthorized)
      = { initialWorld with
          isRefreshing := true,
          initiator := some { r0 with retry := true },
          refreshCalls := 1 } := by
    simp [step, h0, initialWorld]
  rw [h1, foldl_respond_refreshing rs _ rfl hrs]
  simp [step, initialWorld]

/-- Witness for C1: two concurrent 401s, one refresh, both retried in order. -/
theorem single_refresh_all_retried_witness :
    run initialWorld [Event.respond ⟨0, false, none⟩ .unauthorized,
        Event.respond ⟨1, false, none⟩ .unauthorized,
        Event.refreshDone (.ok "tok")]
      = { isRefreshing := false, refreshSubscribers := [], initiator := none,
          refreshCalls := 1,
          reissued := [⟨1, false, some ("Bearer " ++ "tok")⟩,
            ⟨0, true, some ("Bearer " ++ "tok")⟩],
          passedThrough := [], redirects := [] } :=
  single_refresh_all_retried ⟨0, false, none⟩ [⟨1, false, none⟩] "tok" rfl (by decide)

/-- C2 counterexample: after a failed refresh with one queued waiter, the
subscriber queue is NOT empty — the catch branch of the interceptor never
clears `refreshSubscribers`. -/
theorem refresh_failure_queue_not_cleared :
    (run initialWorld [Event.respond ⟨0, false, none⟩ .unauthorized,
        Event.respond ⟨1, false, none⟩ .unauthorized,
        Event.refreshDone (.error "boom")]).refreshSubscribers ≠ [] := by
  decide

/-- C2 amended: when the refresh fails, the wrapper sets `isRefreshing`
back to false, redirects to `/login` and rejects the promise of the initiator,
but the waiter queue is left untouched: it still holds every queued waiter
(the queue is cleared only on a successful refresh). -/
theorem refresh_failure_behavior (r0 : Request) (rs : List Request) (msg : String)
    (h0 : r0.retry = false) (hrs : ∀ r ∈ rs, r.retry = false) :
    run initialWorld (Event.respond r0 .unauthorized ::
        (rs.map (fun r => Event.respond r .unauthorized)
          ++ [Event.refreshDone (.error msg)]))
      = { isRefreshing := false, refreshSubscribers := rs, initiator := none,
          refreshCalls := 1, reissued := [],
          passedThrough := [({ r0 with retry := true }, .refreshFailed msg)],
          redirects := ["/login"] } := by
  unfold run
  rw [List.foldl_cons, List.foldl_append]
  have h1 : step initialWorld (.respond r0 .unauthorized)
      = { initialWorld with
          isRefreshing := true,
          initiator := some { r0 with retry := true },
          refreshCalls := 1 } := by
    simp [step, h0, initialWorld]
  rw [h1, foldl_respond_refreshing rs _ rfl hrs]
  simp [step, initialWorld]

/-- Witness for the amended C2: one waiter remains queued after the failure. -/
theorem refresh_failure_behavior_witness :
    run initialWorld [Event.respond ⟨0, false, none⟩ .unauthorized,
        Event.respond ⟨1, false, none⟩ .unauthorized,
        Event.refreshDone (.error "boom")]
      = { isRefreshing := false, refreshSubscribers := [⟨1, false, none⟩],
          initiator := none, refreshCalls := 1, reissued := [],
          passedThrough := [(⟨0, true, none⟩, .refreshFailed "boom")],
          redirects := ["/login"] } :=
  refresh_failure_behavior ⟨0, false, none⟩ [⟨1, false, none⟩] "boom" rfl (by decide)

/-- C3 counterexample: request 1 is queued as a waiter, retried after the
first refresh, and its retried request (never marked `_retry`) receives a
second 401: instead of passing through to the caller, it starts a second
refresh, after which request 1 is re-issued a second time. -/
theorem waiter_second_401_not_passed_through :
    (run initialWorld [Event.respond ⟨0, false, none⟩ .unauthorized,
        Event.respond ⟨1, false, none⟩ .unauthorized,
        Event.refreshDone (.ok "t1"),
        Event.respond ⟨1, false, some ("Bearer " ++ "t1")⟩ .unauthorized,
        Event.refreshDone (.ok "t2")]).refreshCalls = 2 ∧
    (run initialWorld [Event.respond ⟨0, false, none⟩ .unauthorized,
        Event.respond ⟨1, false, none⟩ .unauthorized,
        Event.refreshDone (.ok "t1"),
        Event.respond ⟨1, false, some ("Bearer " ++ "t1")⟩ .unauthorized,
        Event.refreshDone (.ok "t2")]).passedThrough = [] ∧
    (run initialWorld [Event.respond ⟨0, false, none⟩ .unauthorized,
        Event.respond ⟨1, false, none⟩ .unauthorized,
        Event.refreshDone (.ok "t1"),
        Event.respond ⟨1, false, some ("Bearer " ++ "t1")⟩ .unauthorized,
        Event.refreshDone (.ok "t2")]).reissued
      = [⟨1, false, some ("Bearer " ++ "t1")⟩,
         ⟨0, true, some ("Bearer " ++ "t1")⟩,
         ⟨1, true, some ("Bearer " ++ "t2")⟩] := by
  refine ⟨rfl, rfl, ?_⟩
  decide

/-- C3 amended: the `_retry` guard passes a 401 through to the caller,
without another refresh or retry, exactly when the request is already
marked retried, and only the request that initiates a refresh is so
marked.  A request re-issued from the waiter queue is unmarked, so a
subsequent 401 on it is handled like a fresh 401: re-queued, still
unmarked, when another refresh is in flight, and otherwise starting a new
refresh with it as the marked initiator.  Such a request can therefore be
retried more than once — the trace below re-issues request 1 three times
across three refresh calls — and its 401 passes through only once it
carries the mark. -/
theorem retry_guard_behavior :
    (∀ (w : World) (req : Request), req.retry = true →
      step w (.respond req .unauthorized)
        = { w with passedThrough := w.passedThrough
            ++ [(req, .passthrough .unauthorized)] }) ∧
    (∀ (w : World) (req : Request), req.retry = false → w.isRefreshing = false →
      step w (.respond req .unauthorized)
        = { w with
            isRefreshing := true,
            initiator := some { req with retry := true },
            refreshCalls := w.refreshCalls + 1 }) ∧
    (∀ (w : World) (req : Request), req.retry = false → w.isRefreshing = true →
      step w (.respond req .unauthorized)
        = { w with refreshSubscribers := w.refreshSubscribers ++ [req] }) ∧
    (run initialWorld [Event.respond ⟨0, false, none⟩ .unauthorized,
        Event.respond ⟨1, false, none⟩ .unauthorized,
        Event.refreshDone (.ok "t1"),
        Event.respond ⟨2, false, none⟩ .unauthorized,
        Event.respond ⟨1, false, some ("Bearer " ++ "t1")⟩ .unauthorized,
        Event.refreshDone (.ok "t2"),
        Event.respond ⟨1, false, some ("Bearer " ++ "t2")⟩ .unauthorized,
        Event.refreshDone (.ok "t3"),
        Event.respond ⟨1, true, some ("Bearer " ++ "t3")⟩ .unauthorized]).reissued
      = [⟨1, false, some ("Bearer " ++ "t1")⟩, ⟨0, true, some ("Bearer " ++ "t1")⟩,
         ⟨1, false, some ("Bearer " ++ "t2")⟩, ⟨2, true, some ("Bearer " ++ "t2")⟩,
         ⟨1, true, some ("Bearer " ++ "t3")⟩] ∧
    (run initialWorld [Event.respond ⟨0, false, none⟩ .unauthorized,
        Event.respond ⟨1, false, none⟩ .unauthorized,
        Event.refreshDone (.ok "t1"),
        Event.respond ⟨2, false, none⟩ .unauthorized,
        Event.respond ⟨1, false, some ("Bearer " ++ "t1")⟩ .unauthorized,
        Event.refreshDone (.ok "t2"),
        Event.respond ⟨1, false, some ("Bearer " ++ "t2")⟩ .unauthorized,
        Event.refreshDone (.ok "t3"),
        Event.respond ⟨1, true, some ("Bearer " ++ "t3")⟩ .unauthorized]).passedThrough
      = [(⟨1, true, some ("Bearer " ++ "t3")⟩, .passthrough .unauthorized)] := by
  refine ⟨?_, ?_, ?_, by decide, by decide⟩
  · intro w req h; simp [step, h]
  · intro w req h hw; simp [step, h, hw]
  · intro w req h hw; simp [step, h, hw]

/-- Witness for the amended C3: a second 401 on a retried request is passed
through without touching the refresh machinery. -/
theorem retry_guard_behavior_witness :
    step initialWorld (.respond ⟨5, true, some "Bearer t"⟩ .unauthorized)
      = { initialWorld with
          passedThrough := initialWorld.passedThrough
            ++ [(⟨5, true, some "Bearer t"⟩, .passthrough .unauthorized)] } :=
  retry_guard_behavior.1 initialWorld ⟨5, true, some "Bearer t"⟩ rfl

end JwtRbac
